import Mathlib

/-!
A shallow embedding of the request-authentication and device-pairing core of
`src/server/dexhub_server.py`.  Times are rational numbers (milliseconds on the
authentication path, seconds on the pairing path, exactly as in the Python
code), Python byte strings are lists of naturals, and the mutable module-level
dictionaries (`NONCE_CACHE`, `RATE_LIMITS`, the registry file, and
`PENDING_PAIRINGS`) are association lists threaded through each handler
explicitly, so that the state left behind by a rejected request is visible in
the result.  Exceptions are values of `PyError`: an `httpException` models a
FastAPI rejection, while the remaining constructors model the Python
exceptions that the handlers may leave uncaught.  The two external
cryptographic primitives (SHA-256 and Ed25519 verification) are abstracted as
a `PyLib` parameter; everything else is translated directly from the source.
-/

namespace DexHub

/-!
The Batteries implementation of `Rat.add`, `Rat.sub` and `Rat.mul` is marked
irreducible, which blocks `decide`-style evaluation of the model on concrete
inputs.  The embedding therefore computes with the reducible wrappers below;
the bridge lemmas `qAdd_eq`, `qSub_eq` and `qMul_eq` prove once and for all
that they are exactly rational addition, subtraction and multiplication.
-/

/-- Rational addition, stated through `mkRat` so that it evaluates. -/
def qAdd (a b : Rat) : Rat := mkRat (a.num * b.den + b.num * a.den) (a.den * b.den)

/-- Rational subtraction, stated through `mkRat` so that it evaluates. -/
def qSub (a b : Rat) : Rat := mkRat (a.num * b.den - b.num * a.den) (a.den * b.den)

/-- Rational multiplication, stated through `mkRat` so that it evaluates. -/
def qMul (a b : Rat) : Rat := mkRat (a.num * b.num) (a.den * b.den)

theorem qAdd_eq (a b : Rat) : qAdd a b = a + b := (Rat.add_def' a b).symm

theorem qSub_eq (a b : Rat) : qSub a b = a - b := (Rat.sub_def' a b).symm

theorem qMul_eq (a b : Rat) : qMul a b = a * b := by
  rw [Rat.mul_def, Rat.normalize_eq_mkRat]; rfl

/-- Errors a handler can raise: FastAPI `HTTPException status detail`, plus
the Python exception classes relevant to the two handlers.  `binasciiError`
models `binascii.Error`, which Python defines as a subclass of `ValueError`;
`badSignatureError` models PyNaCl's `BadSignatureError`, which is not a
`ValueError`. -/
inductive PyError where
  | httpException : Nat → String → PyError
  | typeError : PyError
  | valueError : PyError
  | binasciiError : PyError
  | badSignatureError : PyError
  deriving DecidableEq, Repr

deriving instance DecidableEq for Except

/-- The exceptions caught by `except (ValueError, BadSignatureError)` in
`pair_confirm` (line 255): `binascii.Error` is included because it subclasses
`ValueError`; `TypeError` is not caught. -/
def catchesAsPoP : PyError → Bool
  | .valueError => true
  | .binasciiError => true
  | .badSignatureError => true
  | _ => false

/-- External cryptographic primitives used by the server: `hashlib.sha256(b).hexdigest()`
and the raw Ed25519 validity relation (key bytes, message bytes, signature bytes)
underlying `nacl.signing.VerifyKey.verify`. -/
structure PyLib where
  sha256hex : List Nat → String
  ed25519Valid : List Nat → List Nat → List Nat → Bool

/-- Lookup in a Python dict modelled as an association list (first match). -/
def dictGet {α : Type} : List (String × α) → String → Option α
  | [], _ => none
  | (k', v) :: rest, k => if k' = k then some v else dictGet rest k

/-- Python `d[k] = v`: replace the binding in place, or append a new one. -/
def dictInsert {α : Type} : List (String × α) → String → α → List (String × α)
  | [], k, v => [(k, v)]
  | (k', v') :: rest, k, v =>
    if k' = k then (k, v) :: rest else (k', v') :: dictInsert rest k v

/-- Python `del d[k]`. -/
def dictErase {α : Type} (l : List (String × α)) (k : String) : List (String × α) :=
  l.filter (fun p => !(decide (p.1 = k)))

/-- Python truthiness of an optional header value: `None` and `""` are falsy.
This models the `all([dev_id, ts_str, nonce, body_hash, sig_b64])` check. -/
def truthy : Option String → Bool
  | none => false
  | some s => !(s == "")

/-- Python `s.startswith(p)` (line 80). -/
def strStartsWith (s p : String) : Bool :=
  s.data.take p.data.length == p.data

/-- Value of a decimal digit string (helper for `parseFloat`). -/
def digitsVal (cs : List Char) : Nat :=
  cs.foldl (fun a c => 10 * a + (c.toNat - 48)) 0

/-- Helper for `parseFloat`: unsigned decimal literal, optionally with a
fractional part. -/
def parseFloatCore (cs : List Char) : Option Rat :=
  let intPart := cs.takeWhile Char.isDigit
  let rest := cs.dropWhile Char.isDigit
  match rest with
  | [] => if intPart.isEmpty then none else some ((digitsVal intPart : Nat) : Rat)
  | '.' :: frac =>
    if frac.all Char.isDigit && !(intPart.isEmpty && frac.isEmpty) then
      some (qAdd (digitsVal intPart : Nat) (mkRat (digitsVal frac) (10 ^ frac.length)))
    else none
  | _ => none

/-- Python `float(ts_str)` (line 94), restricted to plain decimal literals
with an optional sign and fractional part.  Exotic forms Python would also
accept (exponents, infinities) are treated as unparsable; every timestamp in
the claims is a plain decimal, and all claims about later checks are
conditioned on the parse having succeeded. -/
def parseFloat (s : String) : Option Rat :=
  match s.data with
  | '-' :: rest => (parseFloatCore rest).map (fun x => -x)
  | '+' :: rest => parseFloatCore rest
  | cs => parseFloatCore cs

/-- Python `min(a, b)` on exact numbers. -/
def pyMin (a b : Rat) : Rat := if a ≤ b then a else b

/-- Python `abs(a)` on exact numbers. -/
def pyAbs (a : Rat) : Rat := if a < 0 then -a else a

/-- Value of one hexadecimal digit, if any. -/
def hexDigitVal (c : Char) : Option Nat :=
  let n := c.toNat
  if 48 ≤ n ∧ n ≤ 57 then some (n - 48)
  else if 97 ≤ n ∧ n ≤ 102 then some (n - 87)
  else if 65 ≤ n ∧ n ≤ 70 then some (n - 55)
  else none

/-- Bytes of an even-length hex digit string, if well formed. -/
def hexPairs : List Char → Option (List Nat)
  | [] => some []
  | [_] => none
  | c1 :: c2 :: rest =>
    match hexDigitVal c1, hexDigitVal c2, hexPairs rest with
    | some h, some l, some bs => some ((16 * h + l) :: bs)
    | _, _, _ => none

/-- Python `bytes.fromhex` applied to an optional value: `None` raises
`TypeError` (the argument must be a string), a malformed hex string raises
`ValueError`. -/
def bytes_fromhex : Option String → Except PyError (List Nat)
  | none => .error .typeError
  | some s =>
    match hexPairs s.data with
    | some bs => .ok bs
    | none => .error .valueError

/-- Value of one base64-alphabet character, if any. -/
def b64Val (c : Char) : Option Nat :=
  let n := c.toNat
  if 65 ≤ n ∧ n ≤ 90 then some (n - 65)
  else if 97 ≤ n ∧ n ≤ 122 then some (n - 71)
  else if 48 ≤ n ∧ n ≤ 57 then some (n + 4)
  else if n = 43 then some 62
  else if n = 47 then some 63
  else none

/-- Decode a padding-free base64 character list (groups of four characters
give three bytes; a final group of two or three gives one or two bytes; a
trailing single character is malformed). -/
def b64decodeCore : List Char → Option (List Nat)
  | [] => some []
  | [_] => none
  | [c1, c2] =>
    match b64Val c1, b64Val c2 with
    | some a, some b => some [4 * a + b / 16]
    | _, _ => none
  | [c1, c2, c3] =>
    match b64Val c1, b64Val c2, b64Val c3 with
    | some a, some b, some c => some [4 * a + b / 16, 16 * (b % 16) + c / 4]
    | _, _, _ => none
  | c1 :: c2 :: c3 :: c4 :: rest =>
    match b64Val c1, b64Val c2, b64Val c3, b64Val c4, b64decodeCore rest with
    | some a, some b, some c, some d, some bs =>
      some ((4 * a + b / 16) :: (16 * (b % 16) + c / 4) :: (64 * (c % 4) + d) :: bs)
    | _, _, _, _, _ => none

/-- Python `base64.b64decode` applied to an optional value: `None` raises
`TypeError`; characters outside the alphabet are discarded (the default
`validate=False`); incorrect padding raises `binascii.Error`. -/
def b64decode : Option String → Except PyError (List Nat)
  | none => .error .typeError
  | some s =>
    let kept := s.data.filter (fun c => (b64Val c).isSome || c == '=')
    if kept.length % 4 ≠ 0 then .error .binasciiError
    else
      match b64decodeCore (kept.takeWhile (fun c => !(c == '='))) with
      | some bs => .ok bs
      | none => .error .binasciiError

/-- UTF-8 encoding of one character. -/
def utf8Bytes (c : Char) : List Nat :=
  let n := c.toNat
  if n < 128 then [n]
  else if n < 2048 then [192 + n / 64, 128 + n % 64]
  else if n < 65536 then [224 + n / 4096, 128 + n / 64 % 64, 128 + n % 64]
  else [240 + n / 262144, 128 + n / 4096 % 64, 128 + n / 64 % 64, 128 + n % 64]

/-- Python `s.encode()`: the UTF-8 bytes of a string. -/
def strEncode (s : String) : List Nat :=
  s.data.foldr (fun c acc => utf8Bytes c ++ acc) []

/-- PyNaCl `VerifyKey(b)`: raises `ValueError` unless the key is exactly 32
bytes (`nacl.exceptions.ValueError` subclasses the builtin `ValueError`). -/
def makeVerifyKey (b : List Nat) : Except PyError (List Nat) :=
  if b.length = 32 then .ok b else .error .valueError

/-- PyNaCl `VerifyKey.verify(msg, sig)`: a signature that is not exactly 64
bytes raises `ValueError`; a 64-byte signature that fails verification raises
`BadSignatureError`. -/
def naclVerify (L : PyLib) (key msg sig : List Nat) : Except PyError Unit :=
  if sig.length = 64 then
    if L.ed25519Valid key msg sig then .ok () else .error .badSignatureError
  else .error .valueError

/-- One token bucket, as stored in `RATE_LIMITS[dev_id][endpoint]`
(lines 126-132). -/
structure RateBucket where
  tokens : Rat
  last_refill : Rat
  deriving DecidableEq, Repr

/-- One device-registry record, as written by `pair_confirm` (lines 261-266). -/
structure DeviceRecord where
  public_key : String
  role : String
  enabled : Bool
  created_at : Rat
  deriving DecidableEq, Repr

/-- The mutable server state: `NONCE_CACHE` (device to nonce to expiry ms),
`RATE_LIMITS` (device to endpoint path to bucket), the persisted device
registry, and `PENDING_PAIRINGS` (code to creation time in seconds). -/
structure ServerState where
  nonceCache : List (String × List (String × Rat))
  rateLimits : List (String × List (String × RateBucket))
  registry : List (String × DeviceRecord)
  pendingPairings : List (String × Rat)
  deriving DecidableEq, Repr

/-- An inbound request as seen by `verify_signature`: method, path, the five
credential headers (each possibly absent), the raw body bytes, and the
caller's address `request.client.host`. -/
structure RequestData where
  method : String
  path : String
  deviceId : Option String
  timestamp : Option String
  nonce : Option String
  bodySha256 : Option String
  signature : Option String
  body : List Nat
  callerHost : String
  deriving DecidableEq, Repr

/-- Line 117: `request.client.host in ("127.0.0.1", "::1")`. -/
def isLoopback (host : String) : Bool :=
  host == "127.0.0.1" || host == "::1"

/-- Lines 119-122: capacity and per-second refill rate for an endpoint path:
`(5, 20/60)` for `/stt`, `(10, 60/60)` for everything else. -/
def endpointParams (path : String) : Rat × Rat :=
  if path == "/stt" then (5, mkRat 20 60) else (10, mkRat 60 60)

theorem endpointParams_eq (path : String) :
    endpointParams path = if path == "/stt" then (5, 20 / 60) else ((10 : Rat), (60 : Rat) / 60) := by
  have h1 : mkRat 20 60 = (20 : Rat) / 60 := by
    rw [Rat.mkRat_eq_divInt, Rat.divInt_eq_div]; norm_num
  have h2 : mkRat 60 60 = (60 : Rat) / 60 := by
    rw [Rat.mkRat_eq_divInt, Rat.divInt_eq_div]; norm_num
  rw [endpointParams, h1, h2]

/-- Lines 130-132: lazy refill of a bucket, saturating at `limit`, elapsed
time measured in milliseconds and converted to seconds. -/
def refillBucket (limit rate now : Rat) (b : RateBucket) : RateBucket :=
  { tokens := pyMin limit (qAdd b.tokens (qMul (qMul (qSub now b.last_refill) (mkRat 1 1000)) rate)),
    last_refill := now }

theorem refillBucket_eq (limit rate now : Rat) (b : RateBucket) :
    refillBucket limit rate now b =
      { tokens := pyMin limit (b.tokens + (now - b.last_refill) / 1000 * rate),
        last_refill := now } := by
  have h : mkRat 1 1000 = (1 : Rat) / 1000 := by
    rw [Rat.mkRat_eq_divInt, Rat.divInt_eq_div]; norm_num
  rw [refillBucket, qAdd_eq, qMul_eq, qMul_eq, qSub_eq, h, mul_one_div]

/-- Lines 130-136: refill, then either reject (leaving the refilled bucket in
place) or consume exactly one token. -/
def tryConsume (limit rate now : Rat) (b : RateBucket) : Bool × RateBucket :=
  let b1 := refillBucket limit rate now b
  if b1.tokens < 1 then (false, b1)
  else (true, { tokens := qSub b1.tokens 1, last_refill := b1.last_refill })

/-- A sequence of rate-limiting operations on one bucket, at the given times. -/
def runOps (limit rate : Rat) : RateBucket → List Rat → RateBucket
  | b, [] => b
  | b, t :: ts => runOps limit rate (tryConsume limit rate t b).2 ts

/-- Line 146: the canonical signing string
`METHOD\nPATH\nTIMESTAMP\nNONCE\nBODY_SHA256_HEX`. -/
def canonicalString (method path ts_str nonce body_hash : String) : String :=
  method ++ "\n" ++ path ++ "\n" ++ ts_str ++ "\n" ++ nonce ++ "\n" ++ body_hash

/-- Lines 143-151: decode the stored public key, build the canonical message,
decode the signature and verify.  Only `BadSignatureError` is caught and
mapped to 401 Invalid Signature; every other exception propagates uncaught. -/
def step_sig (L : PyLib) (method path ts_str nonce body_hash sig_b64 pub_hex : String) :
    Except PyError Unit :=
  match bytes_fromhex (some pub_hex) with
  | .error e => .error e
  | .ok kb =>
    match makeVerifyKey kb with
    | .error e => .error e
    | .ok vk =>
      match b64decode (some sig_b64) with
      | .error e => .error e
      | .ok sb =>
        match naclVerify L vk (strEncode (canonicalString method path ts_str nonce body_hash)) sb with
        | .ok _ => .ok ()
        | .error .badSignatureError => .error (.httpException 401 "Invalid Signature")
        | .error e => .error e

/-- Lines 138-151: body-integrity check followed by signature verification.
Neither step mutates any server state. -/
def step_body_sig (L : PyLib) (method path ts_str nonce body_hash sig_b64 : String)
    (body : List Nat) (pub_hex : String) : Except PyError Unit :=
  if !(L.sha256hex body == body_hash) then
    .error (.httpException 400 "Body Integrity Check Failed")
  else step_sig L method path ts_str nonce body_hash sig_b64 pub_hex

/-- Lines 113-151: the checks downstream of the nonce step — device lookup,
rate limiting (skipped for loopback callers), body integrity, and signature
verification.  The rate-limiting step writes the refilled (and possibly
decremented) bucket back even when it rejects. -/
def afterNonce (L : PyLib) (now_ms : Rat)
    (method path ts_str nonce body_hash sig_b64 : String)
    (body : List Nat) (host dev_id : String) (st : ServerState) :
    Except PyError Unit × ServerState :=
  match dictGet st.registry dev_id with
  | none => (.error (.httpException 403 "Device Unauthorized or Unknown"), st)
  | some devRec =>
    if !devRec.enabled then
      (.error (.httpException 403 "Device Unauthorized or Unknown"), st)
    else if isLoopback host then
      (step_body_sig L method path ts_str nonce body_hash sig_b64 body devRec.public_key, st)
    else
      let pr := endpointParams path
      let devBuckets := (dictGet st.rateLimits dev_id).getD []
      let b0 := (dictGet devBuckets path).getD { tokens := pr.1, last_refill := now_ms }
      let cb := tryConsume pr.1 pr.2 now_ms b0
      let st' := { st with
        rateLimits := dictInsert st.rateLimits dev_id (dictInsert devBuckets path cb.2) }
      if cb.1 then
        (step_body_sig L method path ts_str nonce body_hash sig_b64 body devRec.public_key, st')
      else (.error (.httpException 429 "Rate Limit Exceeded"), st')

/-- Lines 104-106: the nonce dictionary of one device after lazily purging the
entries whose expiry has passed (`exp > now_ms` keeps an entry). -/
def purgedNonces (st : ServerState) (dev_id : String) (now_ms : Rat) : List (String × Rat) :=
  ((dictGet st.nonceCache dev_id).getD []).filter (fun p => decide (now_ms < p.2))

/-- Lines 79-151: the full `verify_signature` dependency.  Returns the
outcome (acceptance, an `HTTPException`, or an uncaught Python error) together
with the server state it leaves behind. -/
def verify_signature (L : PyLib) (now_ms : Rat) (req : RequestData) (st : ServerState) :
    Except PyError Unit × ServerState :=
  if strStartsWith req.path "/pair" || strStartsWith req.path "/admin" then (.ok (), st)
  else if !(truthy req.deviceId && truthy req.timestamp && truthy req.nonce &&
      truthy req.bodySha256 && truthy req.signature) then
    (.error (.httpException 401 "Missing Auth Headers"), st)
  else
    let dev_id := req.deviceId.getD ""
    let ts_str := req.timestamp.getD ""
    let nonce := req.nonce.getD ""
    let body_hash := req.bodySha256.getD ""
    let sig_b64 := req.signature.getD ""
    match parseFloat ts_str with
    | none => (.error (.httpException 401 "Invalid Timestamp"), st)
    | some req_ts =>
      if pyAbs (qSub now_ms req_ts) > 60000 then
        (.error (.httpException 401 "Request Expired"), st)
      else
        let purged := purgedNonces st dev_id now_ms
        if (dictGet purged nonce).isSome then
          (.error (.httpException 409 "Nonce Replay Detected"),
            { st with nonceCache := dictInsert st.nonceCache dev_id purged })
        else
          afterNonce L now_ms req.method req.path ts_str nonce body_hash sig_b64
            req.body req.callerHost dev_id
            { st with nonceCache :=
                dictInsert st.nonceCache dev_id (dictInsert purged nonce (qAdd now_ms 65000)) }

/-- Line 245: `code not in PENDING_PAIRINGS`, where a missing payload field
gives `code = None`, which is never a dict key here. -/
def pairLookup (pending : List (String × Rat)) : Option String → Option Rat
  | none => none
  | some c => dictGet pending c

/-- Lines 251-254: the proof-of-possession attempt — decode the hex public
key, construct the verify key, base64-decode the signature, and verify it
over `"PAIR:" + code`.  Returns the public-key bytes on success, and the
Python exception raised on failure. -/
def popCheck (L : PyLib) (code : String) (pub_key sig : Option String) :
    Except PyError (List Nat) :=
  match bytes_fromhex pub_key with
  | .error e => .error e
  | .ok pub_bytes =>
    match makeVerifyKey pub_bytes with
    | .error e => .error e
    | .ok vk =>
      match b64decode sig with
      | .error e => .error e
      | .ok sb =>
        match naclVerify L vk (strEncode ("PAIR:" ++ code)) sb with
        | .ok _ => .ok pub_bytes
        | .error e => .error e

/-- The JSON payload of `pair_confirm`: each field may be absent
(`payload.get` returns `None`). -/
structure PairPayload where
  code : Option String
  public_key : Option String
  signature : Option String
  role : Option String
  deriving DecidableEq, Repr

/-- Lines 238-269: the `/pair/confirm` handler.  Unknown code gives 403
Invalid Code; a code older than 300 s is deleted and gives 403 Code Expired; a
proof-of-possession failure raising `ValueError` (including `binascii.Error`)
or `BadSignatureError` gives 401 Proof of Possession Failed, while any other
exception (notably `TypeError`) propagates uncaught; on success the registry
record is created or overwritten, the registry is persisted, and the code is
deleted. -/
def pair_confirm (L : PyLib) (now_s : Rat) (p : PairPayload) (st : ServerState) :
    Except PyError String × ServerState :=
  match pairLookup st.pendingPairings p.code with
  | none => (.error (.httpException 403 "Invalid Code"), st)
  | some created =>
    let code := p.code.getD ""
    if qSub now_s created > 300 then
      (.error (.httpException 403 "Code Expired"),
        { st with pendingPairings := dictErase st.pendingPairings code })
    else
      match popCheck L code p.public_key p.signature with
      | .error e =>
        if catchesAsPoP e then
          (.error (.httpException 401 "Proof of Possession Failed"), st)
        else (.error e, st)
      | .ok pub_bytes =>
        let dev_id := (L.sha256hex pub_bytes).take 12
        let newRegistry := dictInsert st.registry dev_id
          { public_key := p.public_key.getD "", role := p.role.getD "client",
            enabled := true, created_at := now_s }
        (.ok dev_id,
          { st with
            registry := newRegistry,
            pendingPairings := dictErase st.pendingPairings code })

/-- A request carrying all five credential headers, used to state the claims
about the protected path. -/
def mkReq (method path dev ts_s n bh sg : String) (body : List Nat) (host : String) :
    RequestData :=
  { method := method, path := path, deviceId := some dev, timestamp := some ts_s,
    nonce := some n, bodySha256 := some bh, signature := some sg,
    body := body, callerHost := host }

theorem truthy_some {s : String} (h : s ≠ "") : truthy (some s) = true := by
  simp [truthy, h]

theorem dictGet_dictInsert_self {α : Type} (l : List (String × α)) (k : String) (v : α) :
    dictGet (dictInsert l k v) k = some v := by
  induction l with
  | nil => simp [dictInsert, dictGet]
  | cons p rest ih =>
    obtain ⟨a, b⟩ := p
    by_cases h : a = k <;> simp [dictInsert, dictGet, h, ih]

theorem dictGet_dictInsert_ne {α : Type} (l : List (String × α)) {k k' : String} (v : α)
    (h : k' ≠ k) : dictGet (dictInsert l k v) k' = dictGet l k' := by
  have hk : k ≠ k' := fun hh => h hh.symm
  induction l with
  | nil => simp [dictInsert, dictGet, hk]
  | cons p rest ih =>
    obtain ⟨a, b⟩ := p
    by_cases ha : a = k
    · subst ha
      simp [dictInsert, dictGet, hk]
    · by_cases ha' : a = k' <;> simp [dictInsert, dictGet, ha, ha', h, ih]

theorem dictGet_filter_none {α : Type} (q : String × α → Bool) {l : List (String × α)}
    {k : String} (h : dictGet l k = none) : dictGet (l.filter q) k = none := by
  induction l with
  | nil => simp [dictGet]
  | cons p rest ih =>
    obtain ⟨a, b⟩ := p
    by_cases ha : a = k
    · simp [dictGet, ha] at h
    · simp only [dictGet, ha, if_false] at h
      by_cases hq : q (a, b) <;> simp [List.filter, hq, dictGet, ha, ih h]

theorem dictGet_filter_dictInsert {α : Type} (q : String × α → Bool)
    {l : List (String × α)} {k : String} {v : α}
    (h : dictGet l k = none) (hq : q (k, v) = true) :
    dictGet ((dictInsert l k v).filter q) k = some v := by
  induction l with
  | nil => simp [dictInsert, List.filter, hq, dictGet]
  | cons p rest ih =>
    obtain ⟨a, b⟩ := p
    by_cases ha : a = k
    · simp [dictGet, ha] at h
    · simp only [dictGet, ha, if_false] at h
      by_cases hqa : q (a, b) <;> simp [dictInsert, ha, List.filter, hqa, dictGet, ih h]

theorem dictGet_dictErase_self {α : Type} (l : List (String × α)) (k : String) :
    dictGet (dictErase l k) k = none := by
  induction l with
  | nil => simp [dictErase, dictGet]
  | cons p rest ih =>
    obtain ⟨a, b⟩ := p
    by_cases ha : a = k <;>
      simp_all [dictErase, List.filter, dictGet, ha]

theorem bytes_fromhex_some_cases (s : String) :
    bytes_fromhex (some s) = .error .valueError ∨ ∃ bs, bytes_fromhex (some s) = .ok bs := by
  rcases h : hexPairs s.data with _ | bs <;> simp [bytes_fromhex, h]

theorem b64decode_some_cases (s : String) :
    b64decode (some s) = .error .binasciiError ∨ ∃ bs, b64decode (some s) = .ok bs := by
  simp only [b64decode]
  split
  · simp
  · split <;> simp

theorem naclVerify_cases (L : PyLib) (key msg sig : List Nat) :
    naclVerify L key msg sig = .ok () ∨ naclVerify L key msg sig = .error .badSignatureError ∨
    naclVerify L key msg sig = .error .valueError := by
  by_cases h : sig.length = 64
  · by_cases h2 : L.ed25519Valid key msg sig <;> simp [naclVerify, h, h2]
  · simp [naclVerify, h]

theorem makeVerifyKey_cases (b : List Nat) :
    makeVerifyKey b = .error .valueError ∨ makeVerifyKey b = .ok b := by
  by_cases h : b.length = 32 <;> simp [makeVerifyKey, h]

theorem step_sig_cases (L : PyLib) (method path ts_str nonce body_hash sig_b64 pub_hex : String) :
    step_sig L method path ts_str nonce body_hash sig_b64 pub_hex = .ok () ∨
    step_sig L method path ts_str nonce body_hash sig_b64 pub_hex =
      .error (.httpException 401 "Invalid Signature") ∨
    step_sig L method path ts_str nonce body_hash sig_b64 pub_hex = .error .valueError ∨
    step_sig L method path ts_str nonce body_hash sig_b64 pub_hex = .error .binasciiError := by
  rcases bytes_fromhex_some_cases pub_hex with h | ⟨bs, h⟩
  · simp [step_sig, h]
  rcases makeVerifyKey_cases bs with h2 | h2
  · simp [step_sig, h, h2]
  rcases b64decode_some_cases sig_b64 with h3 | ⟨sb, h3⟩
  · simp [step_sig, h, h2, h3]
  rcases naclVerify_cases L bs (strEncode (canonicalString method path ts_str nonce body_hash)) sb
      with h4 | h4 | h4 <;>
    simp [step_sig, h, h2, h3, h4]

theorem step_body_sig_cases (L : PyLib) (method path ts_str nonce body_hash sig_b64 : String)
    (body : List Nat) (pub_hex : String) :
    step_body_sig L method path ts_str nonce body_hash sig_b64 body pub_hex = .ok () ∨
    step_body_sig L method path ts_str nonce body_hash sig_b64 body pub_hex =
      .error (.httpException 400 "Body Integrity Check Failed") ∨
    step_body_sig L method path ts_str nonce body_hash sig_b64 body pub_hex =
      .error (.httpException 401 "Invalid Signature") ∨
    step_body_sig L method path ts_str nonce body_hash sig_b64 body pub_hex = .error .valueError ∨
    step_body_sig L method path ts_str nonce body_hash sig_b64 body pub_hex =
      .error .binasciiError := by
  unfold step_body_sig
  split
  · simp
  · rcases step_sig_cases L method path ts_str nonce body_hash sig_b64 pub_hex with
      h | h | h | h <;> simp [h]

theorem afterNonce_fst_cases (L : PyLib) (now_ms : Rat)
    (method path ts_str nonce body_hash sig_b64 : String)
    (body : List Nat) (host dev_id : String) (st : ServerState) :
    (afterNonce L now_ms method path ts_str nonce body_hash sig_b64 body host dev_id st).1
        = .ok () ∨
    (afterNonce L now_ms method path ts_str nonce body_hash sig_b64 body host dev_id st).1
        = .error (.httpException 403 "Device Unauthorized or Unknown") ∨
    (afterNonce L now_ms method path ts_str nonce body_hash sig_b64 body host dev_id st).1
        = .error (.httpException 429 "Rate Limit Exceeded") ∨
    (afterNonce L now_ms method path ts_str nonce body_hash sig_b64 body host dev_id st).1
        = .error (.httpException 400 "Body Integrity Check Failed") ∨
    (afterNonce L now_ms method path ts_str nonce body_hash sig_b64 body host dev_id st).1
        = .error (.httpException 401 "Invalid Signature") ∨
    (afterNonce L now_ms method path ts_str nonce body_hash sig_b64 body host dev_id st).1
        = .error .valueError ∨
    (afterNonce L now_ms method path ts_str nonce body_hash sig_b64 body host dev_id st).1
        = .error .binasciiError := by
  unfold afterNonce
  split
  · simp
  · rename_i devRec heq
    split
    · simp
    · split
      · rcases step_body_sig_cases L method path ts_str nonce body_hash sig_b64 body
            devRec.public_key with h | h | h | h | h <;> simp [h]
      · dsimp only
        split
        · rcases step_body_sig_cases L method path ts_str nonce body_hash sig_b64 body
              devRec.public_key with h | h | h | h | h <;> simp [h]
        · simp

theorem afterNonce_snd_frozen (L : PyLib) (now_ms : Rat)
    (method path ts_str nonce body_hash sig_b64 : String)
    (body : List Nat) (host dev_id : String) (st : ServerState) :
    (afterNonce L now_ms method path ts_str nonce body_hash sig_b64 body host dev_id st).2.nonceCache
        = st.nonceCache ∧
    (afterNonce L now_ms method path ts_str nonce body_hash sig_b64 body host dev_id st).2.registry
        = st.registry ∧
    (afterNonce L now_ms method path ts_str nonce body_hash sig_b64 body host dev_id st).2.pendingPairings
        = st.pendingPairings := by
  unfold afterNonce
  split
  · simp
  · split
    · simp
    · split
      · simp
      · dsimp only
        split <;> simp

theorem afterNonce_loopback (L : PyLib) (now_ms : Rat)
    (method path ts_str nonce body_hash sig_b64 : String)
    (body : List Nat) (host dev_id : String) (st : ServerState)
    (h : isLoopback host = true) :
    (afterNonce L now_ms method path ts_str nonce body_hash sig_b64 body host dev_id st).2
      = st := by
  unfold afterNonce
  split
  · simp
  · split
    · simp
    · simp [h]

theorem verify_reach_nonce (L : PyLib) (now : Rat)
    (method path dev ts_s n bh sg : String) (body : List Nat) (host : String)
    (st : ServerState) (t : Rat)
    (hguard : (strStartsWith path "/pair" || strStartsWith path "/admin") = false)
    (hdev : dev ≠ "") (hts : ts_s ≠ "") (hn : n ≠ "") (hbh : bh ≠ "") (hsg : sg ≠ "")
    (hparse : parseFloat ts_s = some t)
    (hfresh : ¬ pyAbs (qSub now t) > 60000) :
    verify_signature L now (mkReq method path dev ts_s n bh sg body host) st =
      (if (dictGet (purgedNonces st dev now) n).isSome then
        (.error (.httpException 409 "Nonce Replay Detected"),
          { st with nonceCache := dictInsert st.nonceCache dev (purgedNonces st dev now) })
      else
        afterNonce L now method path ts_s n bh sg body host dev
          { st with nonceCache := dictInsert st.nonceCache dev
                      (dictInsert (purgedNonces st dev now) n (qAdd now 65000)) }) := by
  simp only [verify_signature, mkReq, hguard, truthy_some hdev, truthy_some hts,
    truthy_some hn, truthy_some hbh, truthy_some hsg, Option.getD_some, hparse,
    Bool.false_eq_true, if_false, Bool.and_self, Bool.not_true, Bool.true_and]
  rw [if_neg hfresh]

theorem pyAbs_eq (a : Rat) : pyAbs a = |a| := by
  unfold pyAbs
  split <;> rename_i h
  · rw [abs_of_neg h]
  · rw [abs_of_nonneg (not_lt.mp h)]

theorem afterNonce_fst_ne_rate (L : PyLib) (now_ms : Rat)
    (method path ts_str nonce body_hash sig_b64 : String)
    (body : List Nat) (host dev_id : String) (st : ServerState)
    (h : isLoopback host = true) :
    (afterNonce L now_ms method path ts_str nonce body_hash sig_b64 body host dev_id st).1
      ≠ .error (.httpException 429 "Rate Limit Exceeded") := by
  unfold afterNonce
  split
  · simp
  · rename_i devRec heq
    split
    · simp
    · simp only [h, if_true]
      rcases step_body_sig_cases L method path ts_str nonce body_hash sig_b64 body
          devRec.public_key with h1 | h1 | h1 | h1 | h1 <;> simp [h1]

/-- Witness fixtures: a `PyLib` whose hash is the constant string `"h"` and
whose signature relation accepts everything, a registry state with one enabled
device `"d"`, and a well-formed request for it. -/
def trueLib : PyLib := { sha256hex := fun _ => "h", ed25519Valid := fun _ _ _ => true }

/-- A 32-byte public key, hex encoded (64 zero characters). -/
def wKeyHex : String := String.mk (List.replicate 64 '0')

/-- A base64 string decoding to 64 zero bytes. -/
def wSigB64 : String := String.mk (List.replicate 86 'A') ++ "=="

/-- A server state with a single enabled device `"d"`. -/
def wState : ServerState :=
  { nonceCache := [], rateLimits := [],
    registry := [("d", { public_key := wKeyHex, role := "client", enabled := true,
                         created_at := 0 })],
    pendingPairings := [] }

/-- C5: a request whose caller address is a loopback address is never rejected
with RateLimited, and the rate-limit table is left untouched — no bucket is
consulted, consumed, or created, no matter how many requests the caller has
made. -/
theorem loopback_skips_rate_limit (L : PyLib) (now : Rat) (req : RequestData)
    (st : ServerState) (h : isLoopback req.callerHost = true) :
    (verify_signature L now req st).1 ≠ .error (.httpException 429 "Rate Limit Exceeded") ∧
    (verify_signature L now req st).2.rateLimits = st.rateLimits := by
  unfold verify_signature
  dsimp only
  split
  · exact ⟨by simp, rfl⟩
  · split
    · exact ⟨by simp, rfl⟩
    · split
      · exact ⟨by simp, rfl⟩
      · split
        · exact ⟨by simp, rfl⟩
        · split
          · exact ⟨by simp, rfl⟩
          · refine ⟨afterNonce_fst_ne_rate _ _ _ _ _ _ _ _ _ _ _ _ h, ?_⟩
            rw [afterNonce_loopback _ _ _ _ _ _ _ _ _ _ _ _ h]

/-- C5 witness: the loopback claim instantiated on a concrete request against
a state whose bucket for this device and path is already empty. -/
theorem loopback_skips_rate_limit_witness :
    isLoopback "127.0.0.1" = true ∧
    ((verify_signature trueLib 0
        (mkReq "POST" "/x" "d" "0" "n1" "h" wSigB64 [] "127.0.0.1")
        { wState with rateLimits := [("d", [("/x", { tokens := 0, last_refill := 0 })])] }).1
      ≠ .error (.httpException 429 "Rate Limit Exceeded")) :=
  ⟨by decide,
    (loopback_skips_rate_limit trueLib 0
      (mkReq "POST" "/x" "d" "0" "n1" "h" wSigB64 [] "127.0.0.1")
      { wState with rateLimits := [("d", [("/x", { tokens := 0, last_refill := 0 })])] }
      (by decide)).1⟩

theorem refill_lower (limit rate now : Rat) (b : RateBucket)
    (hr : 0 ≤ rate) (h1 : b.tokens ≤ limit) (hn : b.last_refill ≤ now) :
    b.tokens ≤ (refillBucket limit rate now b).tokens := by
  rw [refillBucket_eq]
  dsimp only
  unfold pyMin
  split <;> rename_i hmin
  · exact h1
  · have hx : 0 ≤ (now - b.last_refill) / 1000 * rate :=
      mul_nonneg (div_nonneg (sub_nonneg.mpr hn) (by norm_num)) hr
    linarith

theorem refill_bounds (limit rate now : Rat) (b : RateBucket)
    (hr : 0 ≤ rate) (h0 : 0 ≤ b.tokens) (h1 : b.tokens ≤ limit) (hn : b.last_refill ≤ now) :
    0 ≤ (refillBucket limit rate now b).tokens ∧
    (refillBucket limit rate now b).tokens ≤ limit := by
  rw [refillBucket_eq]
  dsimp only
  unfold pyMin
  split <;> rename_i hmin
  · exact ⟨le_trans h0 h1, le_refl limit⟩
  · have hx : 0 ≤ (now - b.last_refill) / 1000 * rate :=
      mul_nonneg (div_nonneg (sub_nonneg.mpr hn) (by norm_num)) hr
    exact ⟨by linarith, le_of_lt (not_le.mp hmin)⟩

theorem tryConsume_inv (limit rate now : Rat) (b : RateBucket)
    (hr : 0 ≤ rate) (h0 : 0 ≤ b.tokens) (h1 : b.tokens ≤ limit) (hn : b.last_refill ≤ now) :
    0 ≤ (tryConsume limit rate now b).2.tokens ∧
    (tryConsume limit rate now b).2.tokens ≤ limit ∧
    (tryConsume limit rate now b).2.last_refill = now := by
  obtain ⟨g0, g1⟩ := refill_bounds limit rate now b hr h0 h1 hn
  unfold tryConsume
  dsimp only
  split <;> rename_i hlt
  · exact ⟨g0, g1, rfl⟩
  · push_neg at hlt
    refine ⟨?_, ?_, rfl⟩
    · dsimp only; rw [qSub_eq]; linarith
    · dsimp only; rw [qSub_eq]; linarith

theorem runOps_inv (limit rate : Rat) (hr : 0 ≤ rate) (ts : List Rat) :
    ∀ b : RateBucket, 0 ≤ b.tokens → b.tokens ≤ limit →
      List.Chain (· ≤ ·) b.last_refill ts →
      0 ≤ (runOps limit rate b ts).tokens ∧ (runOps limit rate b ts).tokens ≤ limit := by
  induction ts with
  | nil => exact fun b h0 h1 _ => ⟨h0, h1⟩
  | cons t ts ih =>
    intro b h0 h1 hch
    obtain ⟨hle, hch2⟩ := List.chain_cons.mp hch
    obtain ⟨g0, g1, g2⟩ := tryConsume_inv limit rate t b hr h0 h1 hle
    have hch3 : List.Chain (· ≤ ·) (tryConsume limit rate t b).2.last_refill ts := by
      rw [g2]; exact hch2
    exact ih (tryConsume limit rate t b).2 g0 g1 hch3

/-- C6: token-bucket invariant for the rate-limiting step (lines 124-136).
Under chronological operation times, refilling adds `elapsed_seconds ×
refill_rate` saturating at the capacity and never decreases the token count; a
rejected request leaves the refilled count in place (which is below 1); an
accepted request consumes exactly one token; and across any chronological
sequence of operations `0 ≤ tokens ≤ capacity` is preserved. -/
theorem rate_bucket_invariant (limit rate : Rat) (b : RateBucket) (now : Rat) (ts : List Rat)
    (hr : 0 ≤ rate) (h0 : 0 ≤ b.tokens) (h1 : b.tokens ≤ limit) (hn : b.last_refill ≤ now)
    (hch : List.Chain (· ≤ ·) now ts) :
    (refillBucket limit rate now b).tokens
        = pyMin limit (b.tokens + (now - b.last_refill) / 1000 * rate) ∧
    b.tokens ≤ (refillBucket limit rate now b).tokens ∧
    ((tryConsume limit rate now b).1 = false →
      (tryConsume limit rate now b).2.tokens = (refillBucket limit rate now b).tokens ∧
      (refillBucket limit rate now b).tokens < 1) ∧
    ((tryConsume limit rate now b).1 = true →
      (tryConsume limit rate now b).2.tokens = (refillBucket limit rate now b).tokens - 1) ∧
    0 ≤ (runOps limit rate b (now :: ts)).tokens ∧
    (runOps limit rate b (now :: ts)).tokens ≤ limit := by
  refine ⟨by rw [refillBucket_eq], refill_lower limit rate now b hr h1 hn, ?_, ?_, ?_⟩
  · unfold tryConsume
    dsimp only
    split <;> rename_i hlt
    · exact fun _ => ⟨rfl, hlt⟩
    · intro hfalse; cases hfalse
  · unfold tryConsume
    dsimp only
    split <;> rename_i hlt
    · intro htrue; cases htrue
    · intro _; dsimp only; rw [qSub_eq]
  · exact runOps_inv limit rate hr (now :: ts) b h0 h1 (List.Chain.cons hn hch)

/-- C6 witness: the invariant instantiated on the default-class bucket with a
partially refilled concrete state. -/
theorem rate_bucket_invariant_witness :
    0 ≤ (runOps 10 1 { tokens := 3, last_refill := 0 } [500, 2000]).tokens ∧
    (runOps 10 1 { tokens := 3, last_refill := 0 } [500, 2000]).tokens ≤ 10 :=
  ⟨(rate_bucket_invariant 10 1 { tokens := 3, last_refill := 0 } 500 [2000]
      (by decide) (by decide) (by decide) (by decide)
      (List.Chain.cons (by decide) List.Chain.nil)).2.2.2.2.1,
   (rate_bucket_invariant 10 1 { tokens := 3, last_refill := 0 } 500 [2000]
      (by decide) (by decide) (by decide) (by decide)
      (List.Chain.cons (by decide) List.Chain.nil)).2.2.2.2.2⟩

/-- C2: once a request has passed the header-presence and timestamp-parse
checks (hence in particular for every request whose nonce check was reached),
it is rejected with RequestExpired exactly when `|now_ms - timestamp| >
60000`, regardless of the remaining fields — no signature hypothesis appears;
both future and past skew up to 60 s pass the check. -/
theorem request_expired_iff (L : PyLib) (now : Rat)
    (method path dev ts_s n bh sg : String) (body : List Nat) (host : String)
    (st : ServerState) (t : Rat)
    (hguard : (strStartsWith path "/pair" || strStartsWith path "/admin") = false)
    (hdev : dev ≠ "") (hts : ts_s ≠ "") (hn : n ≠ "") (hbh : bh ≠ "") (hsg : sg ≠ "")
    (hparse : parseFloat ts_s = some t) :
    ((verify_signature L now (mkReq method path dev ts_s n bh sg body host) st).1
        = .error (.httpException 401 "Request Expired") ↔ pyAbs (qSub now t) > 60000) ∧
    pyAbs (qSub now t) = |now - t| := by
  refine ⟨?_, by rw [pyAbs_eq, qSub_eq]⟩
  by_cases hgt : pyAbs (qSub now t) > 60000
  · refine ⟨fun _ => hgt, fun _ => ?_⟩
    simp only [verify_signature, mkReq, hguard, truthy_some hdev, truthy_some hts,
      truthy_some hn, truthy_some hbh, truthy_some hsg, Option.getD_some, hparse,
      Bool.false_eq_true, if_false, Bool.and_self, Bool.not_true, Bool.true_and]
    rw [if_pos hgt]
  · rw [verify_reach_nonce L now method path dev ts_s n bh sg body host st t hguard hdev hts
      hn hbh hsg hparse hgt]
    refine ⟨fun hcon => absurd ?_ hgt, fun hh => absurd hh hgt⟩
    exfalso
    by_cases hrep : (dictGet (purgedNonces st dev now) n).isSome
    · rw [if_pos hrep] at hcon
      simp at hcon
    · rw [if_neg hrep] at hcon
      rcases afterNonce_fst_cases L now method path ts_s n bh sg body host dev
          { st with
            nonceCache := dictInsert st.nonceCache dev
              (dictInsert (purgedNonces st dev now) n (qAdd now 65000)) } with
        hc | hc | hc | hc | hc | hc | hc <;> rw [hc] at hcon <;> simp at hcon

/-- C2 witness: a request with timestamp 0 arriving at `now = 100000` ms and a
junk signature is rejected with RequestExpired. -/
theorem request_expired_iff_witness :
    (verify_signature trueLib 100000
        (mkReq "POST" "/x" "d" "0" "n1" "h" "junk" [] "127.0.0.1") wState).1
      = .error (.httpException 401 "Request Expired") :=
  ((request_expired_iff trueLib 100000 "POST" "/x" "d" "0" "n1" "h" "junk" [] "127.0.0.1"
      wState 0 (by decide) (by decide) (by decide) (by decide) (by decide) (by decide)
      (by decide)).1).mpr (by decide)

theorem isSome_false_eq_none {α : Type} {o : Option α} (h : o.isSome = false) : o = none := by
  cases o
  · rfl
  · simp at h

theorem afterNonce_fst_ne_replay (L : PyLib) (now_ms : Rat)
    (method path ts_str nonce body_hash sig_b64 : String)
    (body : List Nat) (host dev_id : String) (st : ServerState) :
    (afterNonce L now_ms method path ts_str nonce body_hash sig_b64 body host dev_id st).1
      ≠ .error (.httpException 409 "Nonce Replay Detected") := by
  rcases afterNonce_fst_cases L now_ms method path ts_str nonce body_hash sig_b64 body host
      dev_id st with hc | hc | hc | hc | hc | hc | hc <;> simp [hc]

theorem verify_replay_hit (L : PyLib) (now2 : Rat)
    (method2 path2 dev ts2 n bh2 sg2 : String) (body2 : List Nat) (host2 : String)
    (st2 : ServerState) (t2 : Rat)
    (hguard2 : (strStartsWith path2 "/pair" || strStartsWith path2 "/admin") = false)
    (hdev : dev ≠ "") (hts2 : ts2 ≠ "") (hn : n ≠ "") (hbh2 : bh2 ≠ "") (hsg2 : sg2 ≠ "")
    (hparse2 : parseFloat ts2 = some t2) (hfresh2 : ¬ pyAbs (qSub now2 t2) > 60000)
    (hcache : (dictGet (purgedNonces st2 dev now2) n).isSome = true) :
    (verify_signature L now2 (mkReq method2 path2 dev ts2 n bh2 sg2 body2 host2) st2).1
      = .error (.httpException 409 "Nonce Replay Detected") := by
  rw [verify_reach_nonce L now2 method2 path2 dev ts2 n bh2 sg2 body2 host2 st2 t2 hguard2
    hdev hts2 hn hbh2 hsg2 hparse2 hfresh2]
  rw [if_pos hcache]

theorem verify_fresh_afterNonce (L : PyLib) (now : Rat)
    (method path dev ts_s n bh sg : String) (body : List Nat) (host : String)
    (st : ServerState) (t : Rat)
    (hguard : (strStartsWith path "/pair" || strStartsWith path "/admin") = false)
    (hdev : dev ≠ "") (hts : ts_s ≠ "") (hn : n ≠ "") (hbh : bh ≠ "") (hsg : sg ≠ "")
    (hparse : parseFloat ts_s = some t) (hfresh : ¬ pyAbs (qSub now t) > 60000)
    (hrep : (dictGet (purgedNonces st dev now) n).isSome = false) :
    verify_signature L now (mkReq method path dev ts_s n bh sg body host) st
      = afterNonce L now method path ts_s n bh sg body host dev
          { st with
            nonceCache := dictInsert st.nonceCache dev
              (dictInsert (purgedNonces st dev now) n (qAdd now 65000)) } := by
  rw [verify_reach_nonce L now method path dev ts_s n bh sg body host st t hguard hdev hts
    hn hbh hsg hparse hfresh]
  rw [if_neg (by simp [hrep])]

theorem verify_fresh_cache (L : PyLib) (now : Rat)
    (method path dev ts_s n bh sg : String) (body : List Nat) (host : String)
    (st : ServerState) (t : Rat)
    (hguard : (strStartsWith path "/pair" || strStartsWith path "/admin") = false)
    (hdev : dev ≠ "") (hts : ts_s ≠ "") (hn : n ≠ "") (hbh : bh ≠ "") (hsg : sg ≠ "")
    (hparse : parseFloat ts_s = some t) (hfresh : ¬ pyAbs (qSub now t) > 60000)
    (hrep : (dictGet (purgedNonces st dev now) n).isSome = false) :
    dictGet (verify_signature L now
        (mkReq method path dev ts_s n bh sg body host) st).2.nonceCache dev
      = some (dictInsert (purgedNonces st dev now) n (qAdd now 65000)) := by
  rw [verify_fresh_afterNonce L now method path dev ts_s n bh sg body host st t hguard hdev
    hts hn hbh hsg hparse hfresh hrep]
  rw [(afterNonce_snd_frozen L now method path ts_s n bh sg body host dev _).1]
  exact dictGet_dictInsert_self _ _ _

theorem purgedNonces_after_record (st2 : ServerState) (purged : List (String × Rat))
    (dev n : String) (now now2 : Rat)
    (hrep : dictGet purged n = none)
    (hcache : dictGet st2.nonceCache dev = some (dictInsert purged n (qAdd now 65000)))
    (hlt : now2 < qAdd now 65000) :
    (dictGet (purgedNonces st2 dev now2) n).isSome = true := by
  unfold purgedNonces
  rw [hcache, Option.getD_some]
  rw [dictGet_filter_dictInsert _ hrep (by simpa using hlt)]
  rfl

theorem verify_fresh_second_replay (L : PyLib) (now : Rat)
    (method path dev ts_s n bh sg : String) (body : List Nat) (host : String)
    (st : ServerState) (t : Rat)
    (hguard : (strStartsWith path "/pair" || strStartsWith path "/admin") = false)
    (hdev : dev ≠ "") (hts : ts_s ≠ "") (hn : n ≠ "") (hbh : bh ≠ "") (hsg : sg ≠ "")
    (hparse : parseFloat ts_s = some t) (hfresh : ¬ pyAbs (qSub now t) > 60000)
    (hrep : (dictGet (purgedNonces st dev now) n).isSome = false)
    (method2 path2 ts2 bh2 sg2 : String) (body2 : List Nat) (host2 : String) (now2 t2 : Rat)
    (hguard2 : (strStartsWith path2 "/pair" || strStartsWith path2 "/admin") = false)
    (hts2 : ts2 ≠ "") (hbh2 : bh2 ≠ "") (hsg2 : sg2 ≠ "")
    (hparse2 : parseFloat ts2 = some t2) (hfresh2 : ¬ pyAbs (qSub now2 t2) > 60000)
    (hlt : now2 < qAdd now 65000) :
    (verify_signature L now2 (mkReq method2 path2 dev ts2 n bh2 sg2 body2 host2)
        (verify_signature L now (mkReq method path dev ts_s n bh sg body host) st).2).1
      = .error (.httpException 409 "Nonce Replay Detected") := by
  apply verify_replay_hit L now2 method2 path2 dev ts2 n bh2 sg2 body2 host2 _ t2 hguard2
    hdev hts2 hn hbh2 hsg2 hparse2 hfresh2
  exact purgedNonces_after_record _ (purgedNonces st dev now) dev n now now2
    (isSome_false_eq_none hrep)
    (verify_fresh_cache L now method path dev ts_s n bh sg body host st t hguard hdev hts hn
      hbh hsg hparse hfresh hrep)
    hlt

/-- C3: once a request reaches the nonce step, the device's expired nonce
entries are purged, the request is rejected with NonceReplay exactly when the
nonce is still present after the purge, and otherwise the nonce is recorded
with expiry `now + 65000` ms; other devices' caches are untouched; and a
second request presenting the identical `(device, nonce)` pair within the
65 s window is rejected with NonceReplay whatever its other fields are. -/
theorem nonce_replay_protocol (L : PyLib) (now : Rat)
    (method path dev ts_s n bh sg : String) (body : List Nat) (host : String)
    (st : ServerState) (t : Rat)
    (hguard : (strStartsWith path "/pair" || strStartsWith path "/admin") = false)
    (hdev : dev ≠ "") (hts : ts_s ≠ "") (hn : n ≠ "") (hbh : bh ≠ "") (hsg : sg ≠ "")
    (hparse : parseFloat ts_s = some t) (hfresh : ¬ pyAbs (qSub now t) > 60000) :
    ((verify_signature L now (mkReq method path dev ts_s n bh sg body host) st).1
        = .error (.httpException 409 "Nonce Replay Detected")
      ↔ (dictGet (purgedNonces st dev now) n).isSome = true) ∧
    ((dictGet (purgedNonces st dev now) n).isSome = true →
      dictGet (verify_signature L now
          (mkReq method path dev ts_s n bh sg body host) st).2.nonceCache dev
        = some (purgedNonces st dev now)) ∧
    ((dictGet (purgedNonces st dev now) n).isSome = false →
      dictGet (verify_signature L now
          (mkReq method path dev ts_s n bh sg body host) st).2.nonceCache dev
        = some (dictInsert (purgedNonces st dev now) n (qAdd now 65000))) ∧
    (∀ d, d ≠ dev →
      dictGet (verify_signature L now
          (mkReq method path dev ts_s n bh sg body host) st).2.nonceCache d
        = dictGet st.nonceCache d) ∧
    ((dictGet (purgedNonces st dev now) n).isSome = false →
      ∀ (method2 path2 ts2 bh2 sg2 : String) (body2 : List Nat) (host2 : String)
        (now2 t2 : Rat),
        (strStartsWith path2 "/pair" || strStartsWith path2 "/admin") = false →
        ts2 ≠ "" → bh2 ≠ "" → sg2 ≠ "" → parseFloat ts2 = some t2 →
        ¬ pyAbs (qSub now2 t2) > 60000 → now2 < qAdd now 65000 →
        (verify_signature L now2 (mkReq method2 path2 dev ts2 n bh2 sg2 body2 host2)
            (verify_signature L now (mkReq method path dev ts_s n bh sg body host) st).2).1
          = .error (.httpException 409 "Nonce Replay Detected")) := by
  by_cases hrep : (dictGet (purgedNonces st dev now) n).isSome = true
  · rw [verify_reach_nonce L now method path dev ts_s n bh sg body host st t hguard hdev hts
      hn hbh hsg hparse hfresh]
    rw [if_pos hrep]
    refine ⟨by simp [hrep], fun _ => dictGet_dictInsert_self _ _ _, ?_, ?_, ?_⟩
    · intro hfalse; rw [hfalse] at hrep; cases hrep
    · intro d hd; exact dictGet_dictInsert_ne _ _ hd
    · intro hfalse; rw [hfalse] at hrep; cases hrep
  · have hrep' : (dictGet (purgedNonces st dev now) n).isSome = false :=
      Bool.not_eq_true _ ▸ eq_false_of_ne_true hrep
    refine ⟨?_, ?_, ?_, ?_, ?_⟩
    · rw [verify_fresh_afterNonce L now method path dev ts_s n bh sg body host st t hguard
        hdev hts hn hbh hsg hparse hfresh hrep']
      simp only [hrep']
      exact ⟨fun hc => absurd hc (afterNonce_fst_ne_replay _ _ _ _ _ _ _ _ _ _ _ _),
        fun hc => by cases hc⟩
    · intro hsome; rw [hsome] at hrep'; cases hrep'
    · intro _
      exact verify_fresh_cache L now method path dev ts_s n bh sg body host st t hguard hdev
        hts hn hbh hsg hparse hfresh hrep'
    · intro d hd
      rw [verify_fresh_afterNonce L now method path dev ts_s n bh sg body host st t hguard
        hdev hts hn hbh hsg hparse hfresh hrep']
      rw [(afterNonce_snd_frozen L now method path ts_s n bh sg body host dev _).1]
      exact dictGet_dictInsert_ne _ _ hd
    · intro _ method2 path2 ts2 bh2 sg2 body2 host2 now2 t2 hguard2 hts2 hbh2 hsg2 hparse2
        hfresh2 hlt
      exact verify_fresh_second_replay L now method path dev ts_s n bh sg body host st t
        hguard hdev hts hn hbh hsg hparse hfresh hrep' method2 path2 ts2 bh2 sg2 body2 host2
        now2 t2 hguard2 hts2 hbh2 hsg2 hparse2 hfresh2 hlt

/-- C3 witness: an accepted request on `/x` records nonce `"n1"`; presenting
the same device/nonce pair 50 ms later on another path with otherwise valid
fields is rejected with NonceReplay. -/
theorem nonce_replay_protocol_witness :
    (verify_signature trueLib 50 (mkReq "POST" "/y" "d" "0" "n1" "h" wSigB64 [] "127.0.0.1")
        (verify_signature trueLib 0
          (mkReq "POST" "/x" "d" "0" "n1" "h" wSigB64 [] "127.0.0.1") wState).2).1
      = .error (.httpException 409 "Nonce Replay Detected") :=
  (nonce_replay_protocol trueLib 0 "POST" "/x" "d" "0" "n1" "h" wSigB64 [] "127.0.0.1"
      wState 0 (by decide) (by decide) (by decide) (by decide) (by decide) (by decide)
      (by decide) (by decide)).2.2.2.2
    (by decide) "POST" "/y" "0" "h" wSigB64 [] "127.0.0.1" 50 0
    (by decide) (by decide) (by decide) (by decide) (by decide) (by decide) (by decide)

/-- C4: when a request passes the nonce check and is then rejected by a later
check (device lookup, rate limiting, body integrity, or signature
verification), the nonce entry recorded in step 3 — with expiry `now + 65000`
— is still in the cache afterwards, and a later request reusing the pair
within the window is rejected as a replay. -/
theorem nonce_not_rolled_back (L : PyLib) (now : Rat)
    (method path dev ts_s n bh sg : String) (body : List Nat) (host : String)
    (st : ServerState) (t : Rat)
    (hguard : (strStartsWith path "/pair" || strStartsWith path "/admin") = false)
    (hdev : dev ≠ "") (hts : ts_s ≠ "") (hn : n ≠ "") (hbh : bh ≠ "") (hsg : sg ≠ "")
    (hparse : parseFloat ts_s = some t) (hfresh : ¬ pyAbs (qSub now t) > 60000)
    (hrep : (dictGet (purgedNonces st dev now) n).isSome = false)
    (_hrej : (verify_signature L now (mkReq method path dev ts_s n bh sg body host) st).1
          = .error (.httpException 403 "Device Unauthorized or Unknown") ∨
        (verify_signature L now (mkReq method path dev ts_s n bh sg body host) st).1
          = .error (.httpException 429 "Rate Limit Exceeded") ∨
        (verify_signature L now (mkReq method path dev ts_s n bh sg body host) st).1
          = .error (.httpException 400 "Body Integrity Check Failed") ∨
        (verify_signature L now (mkReq method path dev ts_s n bh sg body host) st).1
          = .error (.httpException 401 "Invalid Signature")) :
    dictGet (verify_signature L now
        (mkReq method path dev ts_s n bh sg body host) st).2.nonceCache dev
      = some (dictInsert (purgedNonces st dev now) n (qAdd now 65000)) ∧
    dictGet (dictInsert (purgedNonces st dev now) n (qAdd now 65000)) n
      = some (qAdd now 65000) ∧
    (∀ (method2 path2 ts2 bh2 sg2 : String) (body2 : List Nat) (host2 : String)
        (now2 t2 : Rat),
      (strStartsWith path2 "/pair" || strStartsWith path2 "/admin") = false →
      ts2 ≠ "" → bh2 ≠ "" → sg2 ≠ "" → parseFloat ts2 = some t2 →
      ¬ pyAbs (qSub now2 t2) > 60000 → now2 < qAdd now 65000 →
      (verify_signature L now2 (mkReq method2 path2 dev ts2 n bh2 sg2 body2 host2)
          (verify_signature L now (mkReq method path dev ts_s n bh sg body host) st).2).1
        = .error (.httpException 409 "Nonce Replay Detected")) := by
  refine ⟨verify_fresh_cache L now method path dev ts_s n bh sg body host st t hguard hdev
    hts hn hbh hsg hparse hfresh hrep, dictGet_dictInsert_self _ _ _, ?_⟩
  intro method2 path2 ts2 bh2 sg2 body2 host2 now2 t2 hguard2 hts2 hbh2 hsg2 hparse2
    hfresh2 hlt
  exact verify_fresh_second_replay L now method path dev ts_s n bh sg body host st t hguard
    hdev hts hn hbh hsg hparse hfresh hrep method2 path2 ts2 bh2 sg2 body2 host2 now2 t2
    hguard2 hts2 hbh2 hsg2 hparse2 hfresh2 hlt

/-- An empty server state (no devices, caches, or pending codes). -/
def emptyState : ServerState :=
  { nonceCache := [], rateLimits := [], registry := [], pendingPairings := [] }

/-- C4 witness: a request from an unknown device is rejected with 403, yet
reusing its nonce 50 ms later is rejected as a replay. -/
theorem nonce_not_rolled_back_witness :
    (verify_signature trueLib 50 (mkReq "POST" "/x" "d" "0" "n1" "h" wSigB64 [] "127.0.0.1")
        (verify_signature trueLib 0
          (mkReq "POST" "/x" "d" "0" "n1" "h" wSigB64 [] "127.0.0.1") emptyState).2).1
      = .error (.httpException 409 "Nonce Replay Detected") :=
  (nonce_not_rolled_back trueLib 0 "POST" "/x" "d" "0" "n1" "h" wSigB64 [] "127.0.0.1"
      emptyState 0 (by decide) (by decide) (by decide) (by decide) (by decide) (by decide)
      (by decide) (by decide) (by decide) (Or.inl (by decide))).2.2
    "POST" "/x" "0" "h" wSigB64 [] "127.0.0.1" 50 0
    (by decide) (by decide) (by decide) (by decide) (by decide) (by decide) (by decide)

theorem afterNonce_rate_state (L : PyLib) (now : Rat)
    (method path ts_s n bh sg : String) (body : List Nat) (host dev : String)
    (st : ServerState) (devRec : DeviceRecord)
    (hreg : dictGet st.registry dev = some devRec) (hen : devRec.enabled = true)
    (hnl : isLoopback host = false) :
    (afterNonce L now method path ts_s n bh sg body host dev st).2
      = { st with
          rateLimits := dictInsert st.rateLimits dev
            (dictInsert ((dictGet st.rateLimits dev).getD []) path
              (tryConsume (endpointParams path).1 (endpointParams path).2 now
                ((dictGet ((dictGet st.rateLimits dev).getD []) path).getD
                  { tokens := (endpointParams path).1, last_refill := now })).2) } := by
  unfold afterNonce
  rw [hreg]
  dsimp only
  simp only [hen, Bool.not_true, Bool.false_eq_true, if_false, hnl]
  split <;> rfl

/-- C7 amended: the rate-limit bucket is selected by the literal request path,
not by a two-class partition — `/stt` gets the speech parameters (capacity 5,
refill 20 per 60 s) and every other path gets the default parameters (capacity
10, refill 60 per 60 s), but each distinct path has its own bucket: a request
to one path writes only the bucket keyed by that exact path and leaves every
other path's bucket (and every other device's table) untouched, so two
different non-speech paths draw from two different buckets. -/
theorem rate_bucket_per_path (L : PyLib) (now : Rat)
    (method path dev ts_s n bh sg : String) (body : List Nat) (host : String)
    (st : ServerState) (t : Rat) (devRec : DeviceRecord)
    (hguard : (strStartsWith path "/pair" || strStartsWith path "/admin") = false)
    (hdev : dev ≠ "") (hts : ts_s ≠ "") (hn : n ≠ "") (hbh : bh ≠ "") (hsg : sg ≠ "")
    (hparse : parseFloat ts_s = some t) (hfresh : ¬ pyAbs (qSub now t) > 60000)
    (hrep : (dictGet (purgedNonces st dev now) n).isSome = false)
    (hreg : dictGet st.registry dev = some devRec) (hen : devRec.enabled = true)
    (hnl : isLoopback host = false) :
    endpointParams "/stt" = (5, 20 / 60) ∧
    (path ≠ "/stt" → endpointParams path = (10, 60 / 60)) ∧
    dictGet ((dictGet (verify_signature L now
          (mkReq method path dev ts_s n bh sg body host) st).2.rateLimits dev).getD []) path
      = some (tryConsume (endpointParams path).1 (endpointParams path).2 now
          ((dictGet ((dictGet st.rateLimits dev).getD []) path).getD
            { tokens := (endpointParams path).1, last_refill := now })).2 ∧
    (∀ q, q ≠ path →
      dictGet ((dictGet (verify_signature L now
          (mkReq method path dev ts_s n bh sg body host) st).2.rateLimits dev).getD []) q
        = dictGet ((dictGet st.rateLimits dev).getD []) q) ∧
    (∀ d, d ≠ dev →
      dictGet (verify_signature L now
          (mkReq method path dev ts_s n bh sg body host) st).2.rateLimits d
        = dictGet st.rateLimits d) := by
  have hrw := verify_fresh_afterNonce L now method path dev ts_s n bh sg body host st t
    hguard hdev hts hn hbh hsg hparse hfresh hrep
  have hst := afterNonce_rate_state L now method path ts_s n bh sg body host dev
    { st with
      nonceCache := dictInsert st.nonceCache dev
        (dictInsert (purgedNonces st dev now) n (qAdd now 65000)) } devRec hreg hen hnl
  refine ⟨by simp [endpointParams_eq], fun hne => ?_, ?_, ?_, ?_⟩
  · rw [endpointParams_eq]
    simp [hne]
  · rw [hrw, hst]
    dsimp only
    rw [dictGet_dictInsert_self, Option.getD_some, dictGet_dictInsert_self]
  · intro q hq
    rw [hrw, hst]
    dsimp only
    rw [dictGet_dictInsert_self, Option.getD_some, dictGet_dictInsert_ne _ _ hq]
  · intro d hd
    rw [hrw, hst]
    dsimp only
    rw [dictGet_dictInsert_ne _ _ hd]

/-- C7 witness: a first request to path `/a` from a non-loopback caller
creates and decrements only the `/a` bucket; the `/b` bucket does not exist
afterwards. -/
theorem rate_bucket_per_path_witness :
    dictGet ((dictGet (verify_signature trueLib 0
        (mkReq "POST" "/a" "d" "0" "n1" "h" wSigB64 [] "10.0.0.5") wState).2.rateLimits
        "d").getD []) "/b" = none := by
  rw [(rate_bucket_per_path trueLib 0 "POST" "/a" "d" "0" "n1" "h" wSigB64 [] "10.0.0.5"
      wState 0 { public_key := wKeyHex, role := "client", enabled := true, created_at := 0 }
      (by decide) (by decide) (by decide) (by decide) (by decide) (by decide) (by decide)
      (by decide) (by decide) (by decide) (by decide) (by decide)).2.2.2.1 "/b" (by decide)]
  decide

/-- C7 counterexample: with the claim's own preconditions satisfied, a request
to `/a` followed by a request to `/b` (same device, both non-speech,
non-loopback) leaves two separate buckets of 9 tokens each; a shared
default-class bucket would have been decremented twice, to 8. -/
theorem rate_bucket_per_path_cx :
    (dictGet ((dictGet (verify_signature trueLib 0
        (mkReq "POST" "/a" "d" "0" "n1" "h" wSigB64 [] "10.0.0.5") wState).2.rateLimits
        "d").getD []) "/b" = none) ∧
    ((dictGet ((dictGet (verify_signature trueLib 0
        (mkReq "POST" "/b" "d" "0" "n2" "h" wSigB64 [] "10.0.0.5")
        (verify_signature trueLib 0
          (mkReq "POST" "/a" "d" "0" "n1" "h" wSigB64 [] "10.0.0.5") wState).2).2.rateLimits
        "d").getD []) "/a").map RateBucket.tokens = some 9) ∧
    ((dictGet ((dictGet (verify_signature trueLib 0
        (mkReq "POST" "/b" "d" "0" "n2" "h" wSigB64 [] "10.0.0.5")
        (verify_signature trueLib 0
          (mkReq "POST" "/a" "d" "0" "n1" "h" wSigB64 [] "10.0.0.5") wState).2).2.rateLimits
        "d").getD []) "/b").map RateBucket.tokens = some 9) ∧
    ((dictGet ((dictGet (verify_signature trueLib 0
        (mkReq "POST" "/b" "d" "0" "n2" "h" wSigB64 [] "10.0.0.5")
        (verify_signature trueLib 0
          (mkReq "POST" "/a" "d" "0" "n1" "h" wSigB64 [] "10.0.0.5") wState).2).2.rateLimits
        "d").getD []) "/b").map RateBucket.tokens ≠ some 8) := by
  refine ⟨by decide, by decide, by decide, by decide⟩

theorem afterNonce_fst_body_sig (L : PyLib) (now : Rat)
    (method path ts_s n bh sg : String) (body : List Nat) (host dev : String)
    (st : ServerState) (devRec : DeviceRecord)
    (hreg : dictGet st.registry dev = some devRec) (hen : devRec.enabled = true)
    (hrate : isLoopback host = true ∨
      (tryConsume (endpointParams path).1 (endpointParams path).2 now
        ((dictGet ((dictGet st.rateLimits dev).getD []) path).getD
          { tokens := (endpointParams path).1, last_refill := now })).1 = true) :
    (afterNonce L now method path ts_s n bh sg body host dev st).1
      = step_body_sig L method path ts_s n bh sg body devRec.public_key := by
  unfold afterNonce
  rw [hreg]
  dsimp only
  simp only [hen, Bool.not_true, Bool.false_eq_true, if_false]
  by_cases hl : isLoopback host = true
  · rw [if_pos hl]
  · rcases hrate with hl2 | htok
    · exact absurd hl2 hl
    · rw [if_neg hl]
      rw [if_pos htok]

theorem verify_fresh_fst_sig (L : PyLib) (now : Rat)
    (method path dev ts_s n bh sg : String) (body : List Nat) (host : String)
    (st : ServerState) (t : Rat) (devRec : DeviceRecord)
    (hguard : (strStartsWith path "/pair" || strStartsWith path "/admin") = false)
    (hdev : dev ≠ "") (hts : ts_s ≠ "") (hn : n ≠ "") (hbh : bh ≠ "") (hsg : sg ≠ "")
    (hparse : parseFloat ts_s = some t) (hfresh : ¬ pyAbs (qSub now t) > 60000)
    (hrep : (dictGet (purgedNonces st dev now) n).isSome = false)
    (hreg : dictGet st.registry dev = some devRec) (hen : devRec.enabled = true)
    (hrate : isLoopback host = true ∨
      (tryConsume (endpointParams path).1 (endpointParams path).2 now
        ((dictGet ((dictGet st.rateLimits dev).getD []) path).getD
          { tokens := (endpointParams path).1, last_refill := now })).1 = true) :
    (verify_signature L now (mkReq method path dev ts_s n bh sg body host) st).1
      = step_body_sig L method path ts_s n bh sg body devRec.public_key := by
  rw [verify_fresh_afterNonce L now method path dev ts_s n bh sg body host st t hguard hdev
    hts hn hbh hsg hparse hfresh hrep]
  exact afterNonce_fst_body_sig L now method path ts_s n bh sg body host dev _ devRec hreg
    hen hrate

/-- C8 amended: for every request reaching the signature step, the verified
message is exactly `METHOD\nPATH\nTIMESTAMP\nNONCE\nBODY_SHA256_HEX` (UTF-8
encoded) checked against the device's stored public key; but rejection with
SignatureInvalid happens exactly on `BadSignatureError`, i.e. when the
base64-decoded signature is 64 bytes long and Ed25519 verification fails.  A
malformed base64 encoding escapes as an uncaught `binascii.Error`, and a
decoded signature of any other length escapes as an uncaught `ValueError` —
neither is mapped to SignatureInvalid. -/
theorem signature_step_behavior (L : PyLib) (now : Rat)
    (method path dev ts_s n bh sg : String) (body : List Nat) (host : String)
    (st : ServerState) (t : Rat) (devRec : DeviceRecord) (kb : List Nat)
    (hguard : (strStartsWith path "/pair" || strStartsWith path "/admin") = false)
    (hdev : dev ≠ "") (hts : ts_s ≠ "") (hn : n ≠ "") (hbh : bh ≠ "") (hsg : sg ≠ "")
    (hparse : parseFloat ts_s = some t) (hfresh : ¬ pyAbs (qSub now t) > 60000)
    (hrep : (dictGet (purgedNonces st dev now) n).isSome = false)
    (hreg : dictGet st.registry dev = some devRec) (hen : devRec.enabled = true)
    (hrate : isLoopback host = true ∨
      (tryConsume (endpointParams path).1 (endpointParams path).2 now
        ((dictGet ((dictGet st.rateLimits dev).getD []) path).getD
          { tokens := (endpointParams path).1, last_refill := now })).1 = true)
    (hkey : bytes_fromhex (some devRec.public_key) = .ok kb) (hklen : kb.length = 32)
    (hhash : L.sha256hex body = bh) :
    (∀ e, b64decode (some sg) = .error e →
      (verify_signature L now (mkReq method path dev ts_s n bh sg body host) st).1
        = .error e) ∧
    (∀ sb, b64decode (some sg) = .ok sb → sb.length ≠ 64 →
      (verify_signature L now (mkReq method path dev ts_s n bh sg body host) st).1
        = .error .valueError) ∧
    (∀ sb, b64decode (some sg) = .ok sb → sb.length = 64 →
      ((verify_signature L now (mkReq method path dev ts_s n bh sg body host) st).1
          = .ok ()
        ↔ L.ed25519Valid kb (strEncode (canonicalString method path ts_s n bh)) sb = true) ∧
      ((verify_signature L now (mkReq method path dev ts_s n bh sg body host) st).1
          = .error (.httpException 401 "Invalid Signature")
        ↔ L.ed25519Valid kb (strEncode (canonicalString method path ts_s n bh)) sb
            = false)) := by
  rw [verify_fresh_fst_sig L now method path dev ts_s n bh sg body host st t devRec hguard
    hdev hts hn hbh hsg hparse hfresh hrep hreg hen hrate]
  unfold step_body_sig step_sig
  simp only [hhash, beq_self_eq_true, Bool.not_true, Bool.false_eq_true, if_false, hkey]
  unfold makeVerifyKey
  rw [if_pos hklen]
  refine ⟨?_, ?_, ?_⟩
  · intro e he
    rw [he]
  · intro sb hsb hlen
    rw [hsb]
    dsimp only
    unfold naclVerify
    rw [if_neg hlen]
  · intro sb hsb hlen
    rw [hsb]
    dsimp only
    unfold naclVerify
    rw [if_pos hlen]
    by_cases hv : L.ed25519Valid kb (strEncode (canonicalString method path ts_s n bh)) sb
        = true
    · rw [if_pos hv]
      refine ⟨⟨fun _ => hv, fun _ => rfl⟩, ⟨fun hc => ?_, fun hf => ?_⟩⟩
      · simp at hc
      · rw [hv] at hf
        simp at hf
    · have hv2 : L.ed25519Valid kb (strEncode (canonicalString method path ts_s n bh)) sb
          = false := eq_false_of_ne_true hv
      rw [if_neg hv]
      refine ⟨⟨fun hc => ?_, fun ht => absurd ht hv⟩, ⟨fun _ => hv2, fun _ => rfl⟩⟩
      simp at hc

/-- C8 witness: a well-formed 64-byte signature accepted by the abstract
Ed25519 relation makes the request succeed, through the canonical string for
its method, path, timestamp, nonce and digest. -/
theorem signature_step_behavior_witness :
    (verify_signature trueLib 0
        (mkReq "POST" "/x" "d" "0" "n1" "h" wSigB64 [] "127.0.0.1") wState).1 = .ok () :=
  (((signature_step_behavior trueLib 0 "POST" "/x" "d" "0" "n1" "h" wSigB64 [] "127.0.0.1"
      wState 0 { public_key := wKeyHex, role := "client", enabled := true, created_at := 0 }
      (List.replicate 32 0)
      (by decide) (by decide) (by decide) (by decide) (by decide) (by decide) (by decide)
      (by decide) (by decide) (by decide) (by decide) (Or.inl (by decide)) (by decide)
      (by decide) (by decide)).2.2 (List.replicate 64 0) (by decide) (by decide)).1).mpr
    (by decide)

/-- C8 counterexample: the signature header `"AAAA"` base64-decodes cleanly to
3 bytes, so it certainly does not verify, yet the request is not rejected with
SignatureInvalid — the `ValueError` raised by PyNaCl for a wrong-length
signature escapes uncaught. -/
theorem signature_step_behavior_cx :
    (verify_signature trueLib 0
        (mkReq "POST" "/x" "d" "0" "n1" "h" "AAAA" [] "127.0.0.1") wState).1
      = .error .valueError ∧
    (verify_signature trueLib 0
        (mkReq "POST" "/x" "d" "0" "n1" "h" "AAAA" [] "127.0.0.1") wState).1
      ≠ .error (.httpException 401 "Invalid Signature") := by
  refine ⟨by decide, by decide⟩

theorem step_body_sig_ok (L : PyLib) (method path ts_s n bh sg : String) (body : List Nat)
    (pub_hex : String) (kb sb : List Nat)
    (hkey : bytes_fromhex (some pub_hex) = .ok kb) (hklen : kb.length = 32)
    (hhash : L.sha256hex body = bh)
    (hsig : b64decode (some sg) = .ok sb) (hslen : sb.length = 64)
    (hval : L.ed25519Valid kb (strEncode (canonicalString method path ts_s n bh)) sb
      = true) :
    step_body_sig L method path ts_s n bh sg body pub_hex = .ok () := by
  unfold step_body_sig step_sig
  simp only [hhash, beq_self_eq_true, Bool.not_true, Bool.false_eq_true, if_false, hkey]
  unfold makeVerifyKey
  rw [if_pos hklen]
  rw [hsig]
  dsimp only
  unfold naclVerify
  rw [if_pos hslen, if_pos hval]

theorem qAdd_65000_gt (now : Rat) : now < qAdd now 65000 := by
  rw [qAdd_eq]
  linarith

/-- C1 amended: a request to a protected endpoint carrying all five credential
headers, with `|now - timestamp| ≤ 60000`, an unrecorded `(device, nonce)`
pair, an enabled registered device whose stored key decodes to a 32-byte
Ed25519 key, a matching body digest, and a signature that base64-decodes to 64
bytes and verifies over the canonical string, is accepted — provided it is
also not rate-limited (the caller is loopback, or the path's bucket yields a
token); and the identical request resubmitted immediately is rejected with
NonceReplay.  Without the rate-limit proviso the claim fails (see the
counterexample). -/
theorem verify_accepts_once (L : PyLib) (now : Rat)
    (method path dev ts_s n bh sg : String) (body : List Nat) (host : String)
    (st : ServerState) (t : Rat) (devRec : DeviceRecord) (kb sb : List Nat)
    (hguard : (strStartsWith path "/pair" || strStartsWith path "/admin") = false)
    (hdev : dev ≠ "") (hts : ts_s ≠ "") (hn : n ≠ "") (hbh : bh ≠ "") (hsg : sg ≠ "")
    (hparse : parseFloat ts_s = some t) (hts60 : pyAbs (qSub now t) ≤ 60000)
    (hnonce : dictGet ((dictGet st.nonceCache dev).getD []) n = none)
    (hreg : dictGet st.registry dev = some devRec) (hen : devRec.enabled = true)
    (hkey : bytes_fromhex (some devRec.public_key) = .ok kb) (hklen : kb.length = 32)
    (hhash : L.sha256hex body = bh)
    (hsig : b64decode (some sg) = .ok sb) (hslen : sb.length = 64)
    (hval : L.ed25519Valid kb (strEncode (canonicalString method path ts_s n bh)) sb = true)
    (hrate : isLoopback host = true ∨
      (tryConsume (endpointParams path).1 (endpointParams path).2 now
        ((dictGet ((dictGet st.rateLimits dev).getD []) path).getD
          { tokens := (endpointParams path).1, last_refill := now })).1 = true) :
    (verify_signature L now (mkReq method path dev ts_s n bh sg body host) st).1
      = .ok () ∧
    (verify_signature L now (mkReq method path dev ts_s n bh sg body host)
        (verify_signature L now (mkReq method path dev ts_s n bh sg body host) st).2).1
      = .error (.httpException 409 "Nonce Replay Detected") := by
  have hfresh : ¬ pyAbs (qSub now t) > 60000 := not_lt.mpr hts60
  have hrep : (dictGet (purgedNonces st dev now) n).isSome = false := by
    unfold purgedNonces
    rw [dictGet_filter_none _ hnonce]
    rfl
  constructor
  · rw [verify_fresh_fst_sig L now method path dev ts_s n bh sg body host st t devRec hguard
      hdev hts hn hbh hsg hparse hfresh hrep hreg hen hrate]
    exact step_body_sig_ok L method path ts_s n bh sg body devRec.public_key kb sb hkey
      hklen hhash hsig hslen hval
  · exact verify_fresh_second_replay L now method path dev ts_s n bh sg body host st t
      hguard hdev hts hn hbh hsg hparse hfresh hrep method path ts_s bh sg body host now t
      hguard hts hbh hsg hparse hfresh (qAdd_65000_gt now)

/-- C1 witness: a fully valid request from device `"d"` is accepted, and its
immediate resubmission is rejected as a nonce replay. -/
theorem verify_accepts_once_witness :
    (verify_signature trueLib 0
        (mkReq "POST" "/x" "d" "0" "n1" "h" wSigB64 [] "127.0.0.1") wState).1 = .ok () ∧
    (verify_signature trueLib 0 (mkReq "POST" "/x" "d" "0" "n1" "h" wSigB64 [] "127.0.0.1")
        (verify_signature trueLib 0
          (mkReq "POST" "/x" "d" "0" "n1" "h" wSigB64 [] "127.0.0.1") wState).2).1
      = .error (.httpException 409 "Nonce Replay Detected") :=
  verify_accepts_once trueLib 0 "POST" "/x" "d" "0" "n1" "h" wSigB64 [] "127.0.0.1" wState 0
    { public_key := wKeyHex, role := "client", enabled := true, created_at := 0 }
    (List.replicate 32 0) (List.replicate 64 0)
    (by decide) (by decide) (by decide) (by decide) (by decide) (by decide) (by decide)
    (by decide) (by decide) (by decide) (by decide) (by decide) (by decide) (by decide)
    (by decide) (by decide) (by decide) (Or.inl (by decide))

/-- C1 counterexample: every condition listed in the claim holds — headers
present, timestamp in window, nonce unrecorded, device enabled, digest
matching, signature a valid 64-byte signature over the canonical string by the
stored key — yet the request is rejected with 429 RateLimited, because the
caller is not loopback and the device's bucket for this path is empty.  The
claim omits a rate-limiting condition. -/
theorem verify_accepts_once_cx :
    parseFloat "0" = some 0 ∧
    pyAbs (qSub 0 0) ≤ 60000 ∧
    dictGet ((dictGet ({ wState with
        rateLimits := [("d", [("/x", { tokens := 0, last_refill := 0 })])] } :
          ServerState).nonceCache "d").getD []) "n1" = none ∧
    dictGet ({ wState with
        rateLimits := [("d", [("/x", { tokens := 0, last_refill := 0 })])] } :
          ServerState).registry "d"
      = some { public_key := wKeyHex, role := "client", enabled := true, created_at := 0 } ∧
    trueLib.sha256hex [] = "h" ∧
    bytes_fromhex (some wKeyHex) = .ok (List.replicate 32 0) ∧
    (List.replicate 32 0).length = 32 ∧
    b64decode (some wSigB64) = .ok (List.replicate 64 0) ∧
    (List.replicate 64 0).length = 64 ∧
    trueLib.ed25519Valid (List.replicate 32 0)
      (strEncode (canonicalString "POST" "/x" "0" "n1" "h")) (List.replicate 64 0) = true ∧
    (verify_signature trueLib 0 (mkReq "POST" "/x" "d" "0" "n1" "h" wSigB64 [] "10.0.0.5")
        { wState with
          rateLimits := [("d", [("/x", { tokens := 0, last_refill := 0 })])] }).1
      = .error (.httpException 429 "Rate Limit Exceeded") ∧
    (verify_signature trueLib 0 (mkReq "POST" "/x" "d" "0" "n1" "h" wSigB64 [] "10.0.0.5")
        { wState with
          rateLimits := [("d", [("/x", { tokens := 0, last_refill := 0 })])] }).1
      ≠ .ok () := by
  refine ⟨by decide, by decide, by decide, by decide, by decide, by decide, by decide,
    by decide, by decide, by decide, by decide, by decide⟩

theorem pair_confirm_invalid (L : PyLib) (now : Rat) (p : PairPayload) (st : ServerState)
    (h : pairLookup st.pendingPairings p.code = none) :
    pair_confirm L now p st = (.error (.httpException 403 "Invalid Code"), st) := by
  simp [pair_confirm, h]

/-- C9: the `pair_confirm` state machine.  An unknown (or absent) code is
rejected with InvalidCode and nothing changes; a known code older than 300 s
is rejected with CodeExpired and the code is deleted; a known fresh code whose
proof-of-possession attempt raises a caught exception (`ValueError`, its
subclass `binascii.Error`, or `BadSignatureError`) is rejected with
ProofOfPossessionFailed; otherwise the device record derived from the public
key is created or overwritten with `enabled = true`, the registry is
persisted, the code is deleted, and any second confirmation of the same code
— with the same or a different proof — is rejected with InvalidCode. -/
theorem pair_confirm_protocol (L : PyLib) (now : Rat) (p : PairPayload) (st : ServerState) :
    (pairLookup st.pendingPairings p.code = none →
      pair_confirm L now p st = (.error (.httpException 403 "Invalid Code"), st)) ∧
    (∀ c created, p.code = some c → dictGet st.pendingPairings c = some created →
      qSub now created > 300 →
      pair_confirm L now p st = (.error (.httpException 403 "Code Expired"),
        { st with pendingPairings := dictErase st.pendingPairings c })) ∧
    (∀ c created, p.code = some c → dictGet st.pendingPairings c = some created →
      ¬ qSub now created > 300 →
      ∀ e, popCheck L c p.public_key p.signature = .error e → catchesAsPoP e = true →
        pair_confirm L now p st
          = (.error (.httpException 401 "Proof of Possession Failed"), st)) ∧
    (∀ c created pub_bytes, p.code = some c → dictGet st.pendingPairings c = some created →
      ¬ qSub now created > 300 →
      popCheck L c p.public_key p.signature = .ok pub_bytes →
      (pair_confirm L now p st).1 = .ok ((L.sha256hex pub_bytes).take 12) ∧
      dictGet (pair_confirm L now p st).2.registry ((L.sha256hex pub_bytes).take 12)
        = some { public_key := p.public_key.getD "", role := p.role.getD "client",
                 enabled := true, created_at := now } ∧
      dictGet (pair_confirm L now p st).2.pendingPairings c = none ∧
      (∀ (p2 : PairPayload) (now2 : Rat), p2.code = some c →
        (pair_confirm L now2 p2 (pair_confirm L now p st).2).1
          = .error (.httpException 403 "Invalid Code"))) := by
  refine ⟨?_, ?_, ?_, ?_⟩
  · intro hnone
    exact pair_confirm_invalid L now p st hnone
  · intro c created hc hlook hexp
    simp [pair_confirm, pairLookup, hc, hlook, hexp]
  · intro c created hc hlook hexp e hpop hcatch
    simp [pair_confirm, pairLookup, hc, hlook, hexp, hpop, hcatch]
  · intro c created pub_bytes hc hlook hexp hpop
    have hred : pair_confirm L now p st
        = (.ok ((L.sha256hex pub_bytes).take 12),
           { st with
             registry := dictInsert st.registry ((L.sha256hex pub_bytes).take 12)
               { public_key := p.public_key.getD "", role := p.role.getD "client",
                 enabled := true, created_at := now },
             pendingPairings := dictErase st.pendingPairings c }) := by
      simp [pair_confirm, pairLookup, hc, hlook, hexp, hpop]
    refine ⟨by rw [hred], ?_, ?_, ?_⟩
    · rw [hred]
      exact dictGet_dictInsert_self _ _ _
    · rw [hred]
      exact dictGet_dictErase_self _ _
    · intro p2 now2 hc2
      have hnone2 : pairLookup (pair_confirm L now p st).2.pendingPairings p2.code = none := by
        rw [hred, hc2]
        exact dictGet_dictErase_self _ _
      rw [pair_confirm_invalid L now2 p2 _ hnone2]

/-- Fixtures for the pairing claims: a payload carrying the fixture key and
signature for code `"123456"`, and a state in which that code is pending
since time 0. -/
def wPayload : PairPayload :=
  { code := some "123456", public_key := some wKeyHex, signature := some wSigB64,
    role := none }

/-- A server state whose only pending pairing code is `"123456"`, created at
time 0 s. -/
def wPairState : ServerState :=
  { nonceCache := [], rateLimits := [], registry := [],
    pendingPairings := [("123456", 0)] }

/-- C9 witness: confirming the pending code `"123456"` with a valid proof
succeeds and registers the device; confirming the same code again is rejected
with InvalidCode. -/
theorem pair_confirm_protocol_witness :
    (pair_confirm trueLib 10 wPayload wPairState).1
      = .ok ((trueLib.sha256hex (List.replicate 32 0)).take 12) ∧
    (pair_confirm trueLib 10 wPayload (pair_confirm trueLib 10 wPayload wPairState).2).1
      = .error (.httpException 403 "Invalid Code") :=
  ⟨((pair_confirm_protocol trueLib 10 wPayload wPairState).2.2.2 "123456" 0
      (List.replicate 32 0) (by decide) (by decide) (by decide) (by decide)).1,
   ((pair_confirm_protocol trueLib 10 wPayload wPairState).2.2.2 "123456" 0
      (List.replicate 32 0) (by decide) (by decide) (by decide) (by decide)).2.2.2
    wPayload 10 (by decide)⟩

/-- C10 amended: with a known, unexpired code, the handler escapes with an
uncaught `TypeError` when the payload omits `public_key` (its value is
`None`), or when it supplies a `public_key` that hex-decodes to a 32-byte key
while omitting `signature`.  If instead the payload omits `signature` but its
`public_key` is present and not valid 32-byte hex, the `ValueError` raised
first by `bytes.fromhex` (or by `VerifyKey`) is caught, and the call is
rejected with ProofOfPossessionFailed rather than escaping (see the
counterexample). -/
theorem pair_confirm_missing_fields (L : PyLib) (now : Rat) (p : PairPayload)
    (st : ServerState) (c : String) (created : Rat)
    (hc : p.code = some c) (hlook : dictGet st.pendingPairings c = some created)
    (hexp : ¬ qSub now created > 300)
    (hmiss : p.public_key = none ∨
      (∃ kb, bytes_fromhex p.public_key = .ok kb ∧ kb.length = 32 ∧ p.signature = none)) :
    (pair_confirm L now p st).1 = .error .typeError ∧
    (pair_confirm L now p st).1 ≠ .error (.httpException 401 "Proof of Possession Failed") := by
  have hpop : popCheck L c p.public_key p.signature = .error .typeError := by
    rcases hmiss with h | ⟨kb, hk, hkl, hs⟩
    · simp [popCheck, h, bytes_fromhex]
    · simp [popCheck, hk, makeVerifyKey, hkl, hs, b64decode]
  have hred : (pair_confirm L now p st).1 = .error .typeError := by
    simp [pair_confirm, pairLookup, hc, hlook, hexp, hpop, catchesAsPoP]
  refine ⟨hred, ?_⟩
  rw [hred]
  simp

/-- C10 witness: with the code pending and fresh, omitting `public_key` and
supplying a valid-looking signature escapes with an uncaught `TypeError`. -/
theorem pair_confirm_missing_fields_witness :
    (pair_confirm trueLib 10
        { code := some "123456", public_key := none, signature := some wSigB64,
          role := none } wPairState).1 = .error .typeError :=
  (pair_confirm_missing_fields trueLib 10
      { code := some "123456", public_key := none, signature := some wSigB64, role := none }
      wPairState "123456" 0 (by decide) (by decide) (by decide) (Or.inl (by decide))).1

/-- C10 counterexample: a payload that omits the `signature` field but whose
`public_key` value `"zz"` is not valid hex satisfies the claim's hypothesis
(code known and unexpired, signature omitted), yet the handler rejects with
ProofOfPossessionFailed — the `ValueError` from `bytes.fromhex` is raised
before the `TypeError` from `b64decode(None)` could occur, and it is caught. -/
theorem pair_confirm_missing_fields_cx :
    (pair_confirm trueLib 10
        { code := some "123456", public_key := some "zz", signature := none, role := none }
        wPairState).1 = .error (.httpException 401 "Proof of Possession Failed") ∧
    (pair_confirm trueLib 10
        { code := some "123456", public_key := some "zz", signature := none, role := none }
        wPairState).1 ≠ .error .typeError := by
  refine ⟨by decide, by decide⟩

end DexHub
